import Mathlib

/-!
Shallow embedding of `src/iss_tracker.py` (the ISS trajectory query engine).

State-vector samples are records of an epoch string plus Cartesian position
and velocity components.  The global `data` dictionary is modelled as
`Option (List StateVector)`: `none` stands for the cleared dictionary
(`bool(data)` false), `some svs` for a loaded data set whose
`['ndm']['oem']['body']['segment']['data']['stateVector']` list is `svs`.

Machine floats are modelled as real numbers; the epoch-string arithmetic
(python slicing, `float` of the sliced digit strings, `int` of query
parameters) is modelled exactly over `String`/`ℚ`/`Int`.  Two genuinely
environment-dependent collaborators are parameters:

* `mk : String → ℚ` stands for
  `time.mktime(time.strptime(epoch[:-5], '%Y-%jT%H:%M:%S'))` — calendar
  arithmetic in the host's local time zone (line 253);
* `geocode : ℝ → ℝ → Option String` stands for the Nominatim reverse
  geocoder (`None` result modelled as `none`).
-/

namespace IssTracker

/-- One entry of the `stateVector` list (`EPOCH`, `X`/`Y`/`Z`,
`X_DOT`/`Y_DOT`/`Z_DOT`, each `['#text']` already converted by `float`). -/
structure StateVector where
  epoch : String
  x : ℝ
  y : ℝ
  z : ℝ
  xdot : ℝ
  ydot : ℝ
  zdot : ℝ

/-- The global `data` object: `none` ≙ cleared (`{}`), `some svs` ≙ loaded. -/
abbrev Store := Option (List StateVector)

/-- Model of `deleteData` (lines 142-149): `data.clear()` empties the dictionary. -/
def deleteData (_ : Store) : Store := none

/-- Constant `MEAN_EARTH_RADIUS = 6371` (line 13). -/
noncomputable def MEAN_EARTH_RADIUS : ℝ := 6371

/-! ## Python slicing and number parsing -/

/-- Clamp a python slice index `i` for a sequence of length `n`:
negative indices count from the end (`max 0 (n + i)`), nonnegative ones are
clamped to `n`. -/
def pyIdx (n : ℕ) (i : Int) : ℕ :=
  if i < 0 then ((n : Int) + i).toNat else min i.toNat n

/-- Python `xs[a:b]` for integer bounds `a`, `b`. -/
def pySlice (xs : List α) (a b : Int) : List α :=
  (xs.take (pyIdx xs.length b)).drop (pyIdx xs.length a)

/-- Python `xs[a:]`. -/
def pySliceFrom (xs : List α) (a : Int) : List α :=
  xs.drop (pyIdx xs.length a)

/-- Python `s[a:b]` on strings. -/
def pyStrSlice (s : String) (a b : Int) : String :=
  String.mk (pySlice s.data a b)

/-- Value of a decimal digit string. -/
def digitsToNat (cs : List Char) : ℕ :=
  cs.foldl (fun acc c => 10 * acc + (c.toNat - 48)) 0

/-- Python `int(s)`: an optional sign followed by a nonempty run of decimal
digits parses to its value, anything else raises `ValueError` (modelled as
`none`). -/
def pyInt (s : String) : Option Int :=
  match s.data with
  | '-' :: rest =>
    if rest ≠ [] ∧ rest.all Char.isDigit then some (-(digitsToNat rest : Int))
    else none
  | '+' :: rest =>
    if rest ≠ [] ∧ rest.all Char.isDigit then some (digitsToNat rest : Int)
    else none
  | cs =>
    if cs ≠ [] ∧ cs.all Char.isDigit then some (digitsToNat cs : Int)
    else none

/-- Python `float(s)` restricted to the strings that arise from slicing an
epoch (`s` empty or a run of decimal digits): a nonempty digit string parses
to its value, anything else raises `ValueError` (modelled as `none`). -/
def pyFloatDigits (s : String) : Option ℚ :=
  if s.data ≠ [] ∧ s.data.all Char.isDigit then
    some ((digitsToNat s.data : ℕ) : ℚ)
  else none

/-- Model of `float(epoch[9:-11])` — the hour digits of an epoch string (line 209). -/
def hrsOf (epoch : String) : Option ℚ := pyFloatDigits (pyStrSlice epoch 9 (-11))

/-- Model of `float(epoch[12:-8])` — the minute digits of an epoch string (line 210). -/
def minsOf (epoch : String) : Option ℚ := pyFloatDigits (pyStrSlice epoch 12 (-8))

/-! ## Geometry (`math.atan2`, `math.degrees`, `math.sqrt`) -/

/-- Model of `math.atan2 y x`, as the argument of the complex number `x + y i`. -/
noncomputable def atan2 (y x : ℝ) : ℝ := Complex.arg ⟨x, y⟩

/-- Model of `math.degrees r = r * 180 / π`. -/
noncomputable def degrees (r : ℝ) : ℝ := r * 180 / Real.pi

/-- Latitude `math.degrees(math.atan2(z, math.sqrt(x**2 + y**2)))` (line 212). -/
noncomputable def latOf (x y z : ℝ) : ℝ :=
  degrees (atan2 z (Real.sqrt (x ^ 2 + y ^ 2)))

/-- The raw longitude before normalization (line 213):
`math.degrees(math.atan2(y, x)) - ((hrs-12)+(mins/60))*(360/24) + 24`. -/
noncomputable def rawLon (x y hrs mins : ℝ) : ℝ :=
  degrees (atan2 y x) - ((hrs - 12) + mins / 60) * (360 / 24) + 24

/-- Longitude normalization (lines 214-217): keep values in `[-180, 180]`,
otherwise remap via `lon = -180 + (lon - 180)`. -/
noncomputable def normalizeLon (lon : ℝ) : ℝ :=
  if lon ≤ 180 ∧ -180 ≤ lon then lon else -180 + (lon - 180)

/-- The longitude returned by `getLocation` for position `(x, y, _)` and
timestamp hour/minute `(hrs, mins)`. -/
noncomputable def lonOf (x y hrs mins : ℝ) : ℝ :=
  normalizeLon (rawLon x y hrs mins)

/-- Altitude `math.sqrt(x**2 + y**2 + z**2) - MEAN_EARTH_RADIUS` (line 218). -/
noncomputable def altOf (x y z : ℝ) : ℝ :=
  Real.sqrt (x ^ 2 + y ^ 2 + z ^ 2) - MEAN_EARTH_RADIUS

/-- Speed `math.sqrt(x_dot**2 + y_dot**2 + z_dot**2)` (line 121). -/
noncomputable def speedOf (vx vy vz : ℝ) : ℝ :=
  Real.sqrt (vx ^ 2 + vy ^ 2 + vz ^ 2)

/-! ## `/epochs` (`showEpochs`, lines 44-81) -/

/-- Outcome of `showEpochs`: the `'Data has been cleared.\n'` string, one of
the two `400 Bad input` responses, the epoch list, or an unhandled
`TypeError` (slicing with a leftover empty-string parameter). -/
inductive EpochsResult
  | cleared
  | badOffset
  | badLimit
  | ok (epochs : List String)
  | error
deriving DecidableEq

/-- Value of `offset`/`limit` after the `try: int(...)` block: an integer,
or the empty string (falsy, so never passed through `int`, line 59/64). -/
inductive ParamVal
  | intv (i : Int)
  | emptyStr
deriving DecidableEq

/-- Model of `request.args.get(p, 0)` followed by `if p: try: p = int(p) except
ValueError: return 400` — `none` models the `ValueError` return. -/
def resolveParam : Option String → Option ParamVal
  | none => some (.intv 0)
  | some s => if s.isEmpty then some .emptyStr else (pyInt s).map .intv

/-- The four-branch slice of lines 73-80 for integer `offset`/`limit`. -/
def sliceEpochs (offset limit : Int) (epochs : List String) : List String :=
  if offset ≠ 0 ∧ limit ≠ 0 then pySlice epochs offset (offset + limit)
  else if offset = 0 ∧ limit ≠ 0 then pySlice epochs 0 (offset + limit)
  else if offset ≠ 0 ∧ limit = 0 then pySliceFrom epochs offset
  else epochs

/-- Lines 73-80 on the resolved parameter values; `none` models the
`TypeError` raised when a leftover empty-string parameter reaches the
slice (python `"" != 0` is true, so the string is used as an index). -/
def selectEpochs : ParamVal → ParamVal → List String → Option (List String)
  | .intv o, .intv l, epochs => some (sliceEpochs o l epochs)
  | _, _, _ => none

/-- The `EPOCH` fields of the state-vector list (lines 70-72). -/
def epochsOf (svs : List StateVector) : List String := svs.map (·.epoch)

/-- Route `showEpochs` (lines 44-81): fetch raw `offset`/`limit`, short-circuit on
an empty store, validate the parameters (offset first), then slice. -/
def showEpochs (store : Store) (rawOffset rawLimit : Option String) :
    EpochsResult :=
  match store with
  | none => .cleared
  | some svs =>
    match resolveParam rawOffset with
    | none => .badOffset
    | some ov =>
      match resolveParam rawLimit with
      | none => .badLimit
      | some lv =>
        match selectEpochs ov lv (epochsOf svs) with
        | none => .error
        | some es => .ok es

/-! ## `/epochs/<epoch>` (`showStateVectors`, lines 83-100) -/

/-- The shared linear scan `for x in stateVector: if x['EPOCH'] == epoch:
return x` — first match wins, `none` if the loop falls through. -/
def findExact (epoch : String) : List StateVector → Option StateVector
  | [] => none
  | sv :: rest => if sv.epoch = epoch then some sv else findExact epoch rest

/-- Outcome of `showStateVectors`. -/
inductive VecResult
  | cleared
  | notFound (epoch : String)
  | found (sv : StateVector)

/-- Route `showStateVectors` (lines 83-100). -/
def showStateVectors (store : Store) (epoch : String) : VecResult :=
  match store with
  | none => .cleared
  | some svs =>
    match findExact epoch svs with
    | some sv => .found sv
    | none => .notFound epoch

/-! ## `/epochs/<epoch>/speed` (`showSpeed`, lines 102-124) -/

/-- Outcome of `showSpeed`. -/
inductive SpeedResult
  | cleared
  | notFound (epoch : String)
  | ok (speed : ℝ)

/-- Route `showSpeed` (lines 102-124). -/
noncomputable def showSpeed (store : Store) (epoch : String) : SpeedResult :=
  match store with
  | none => .cleared
  | some svs =>
    match findExact epoch svs with
    | some sv => .ok (speedOf sv.xdot sv.ydot sv.zdot)
    | none => .notFound epoch

/-! ## `/epochs/<epoch>/location` (`getLocation`, lines 190-228) -/

/-- The `geo` field: the geocoder's answer, or the fallback text
`'Location may be over the ocean'` when it returns `None` (lines 223-226). -/
def geoText : Option String → String
  | none => "Location may be over the ocean"
  | some s => s

/-- Payload of a successful `getLocation` response (line 224/226). -/
structure LocInfo where
  lat : ℝ
  lon : ℝ
  alt : ℝ
  geo : String

/-- Outcome of `getLocation`; `error` models the uncaught `ValueError` when
`float` is applied to a malformed hour/minute slice of the epoch string. -/
inductive LocResult
  | cleared
  | notFound (epoch : String)
  | error
  | ok (info : LocInfo)

/-- The `geo` field of a successful `LocResult`, if any. -/
def LocResult.geoOf : LocResult → Option String
  | .ok info => some info.geo
  | _ => none

/-- Route `getLocation` (lines 190-228), with the reverse geocoder as the
parameter `geocode`. -/
noncomputable def getLocation (geocode : ℝ → ℝ → Option String)
    (store : Store) (epoch : String) : LocResult :=
  match store with
  | none => .cleared
  | some svs =>
    match findExact epoch svs with
    | none => .notFound epoch
    | some sv =>
      match hrsOf epoch, minsOf epoch with
      | some h, some m =>
        let lat := latOf sv.x sv.y sv.z
        let lon := lonOf sv.x sv.y (h : ℝ) (m : ℝ)
        let alt := altOf sv.x sv.y sv.z
        .ok ⟨lat, lon, alt, geoText (geocode lat lon)⟩
      | _, _ => .error

/-! ## `/now` (`getNowLoc`, lines 230-291) -/

/-- Python `abs` on a rational value. -/
def ratAbs (q : ℚ) : ℚ := if q < 0 then -q else q

/-- One iteration of the first loop (lines 250-257).  The accumulator holds
`(epoch, epoch_time, smallest_diff, now_epoch)`; `epoch` and `epoch_time`
are reassigned every iteration, `smallest_diff`/`now_epoch` only on a
strictly smaller absolute difference.  `none` is the initial state
(`smallest_diff = inf`, `now_epoch` unbound). -/
def nowStep (mk : String → ℚ) (timeNow : ℚ)
    (acc : Option (String × ℚ × ℚ × String)) (sv : StateVector) :
    Option (String × ℚ × ℚ × String) :=
  match acc with
  | none =>
    some (sv.epoch, mk sv.epoch, ratAbs (mk sv.epoch - timeNow), sv.epoch)
  | some (_, _, sd, ne) =>
    some (sv.epoch, mk sv.epoch,
      if ratAbs (mk sv.epoch - timeNow) < sd then ratAbs (mk sv.epoch - timeNow)
      else sd,
      if ratAbs (mk sv.epoch - timeNow) < sd then sv.epoch else ne)

/-- The whole first loop of `getNowLoc`: final values of
`(epoch, epoch_time, smallest_diff, now_epoch)`; `none` iff the series is
empty (in python `now_epoch` would then be unbound — `NameError`). -/
def nowScan (mk : String → ℚ) (timeNow : ℚ) (svs : List StateVector) :
    Option (String × ℚ × ℚ × String) :=
  svs.foldl (nowStep mk timeNow) none

/-- Payload of a successful `/now` response (lines 286-288). -/
structure NowInfo where
  closestEpoch : String
  epochTime : ℚ
  secondsFromNow : ℚ
  lat : ℝ
  lon : ℝ
  alt : ℝ
  geo : String
  speed : ℝ

/-- Outcome of `getNowLoc`; `error` models the uncaught python exceptions
(`NameError` on an empty series, `ValueError` on malformed hour digits). -/
inductive NowResult
  | cleared
  | notFound (epoch : String)
  | error
  | ok (info : NowInfo)

/-- Route `getNowLoc` (lines 230-291).  Note the second loop reads the variables
`epoch` and `epoch_time` left over from the first loop — the LAST sample's
epoch string and absolute time — not the matched sample's (lines 265-266
and 286: `hrs`/`mins` and the returned `epochTime` use them). -/
noncomputable def getNowLoc (mk : String → ℚ)
    (geocode : ℝ → ℝ → Option String) (timeNow : ℚ) (store : Store) :
    NowResult :=
  match store with
  | none => .cleared
  | some svs =>
    match nowScan mk timeNow svs with
    | none => .error
    | some (lastEpoch, lastTime, smallestDiff, nowEpoch) =>
      match findExact nowEpoch svs with
      | none => .notFound lastEpoch
      | some sv =>
        match hrsOf lastEpoch, minsOf lastEpoch with
        | some h, some m =>
          let lat := latOf sv.x sv.y sv.z
          let lon := lonOf sv.x sv.y (h : ℝ) (m : ℝ)
          let alt := altOf sv.x sv.y sv.z
          let speed := speedOf sv.xdot sv.ydot sv.zdot
          .ok ⟨nowEpoch, lastTime, smallestDiff, lat, lon, alt,
            geoText (geocode lat lon), speed⟩
        | _, _ => .error

/-! ## Concrete fixtures used by the witnesses and counterexamples -/

/-- Sample at day-of-year 48, 02:00, on the x-axis at radius 7000 km. -/
def svA : StateVector := ⟨"2023-048T02:00:00.000Z", 7000, 0, 0, 1, 0, 0⟩

/-- Sample at day-of-year 48, 10:00, same position and velocity as `svA`. -/
def svB : StateVector := ⟨"2023-048T10:00:00.000Z", 7000, 0, 0, 1, 0, 0⟩

/-- The single sample of the §8 scenario: position `(7000, 0, 0)`,
velocity `(1, 0, 0)`, at 12:00 (timestamp in the feed's fixed
`YYYY-DDDTHH:MM:SS.fffZ` format). -/
def svC8 : StateVector := ⟨"2023-050T12:00:00.000Z", 7000, 0, 0, 1, 0, 0⟩

/-- Concrete absolute-time assignment: `svA`'s epoch maps to 100 s, every
other epoch (in particular `svB`'s) to 200 s. -/
def mkDemo : String → ℚ :=
  fun s => if s = "2023-048T02:00:00.000Z" then 100 else 200

/-! ## Helper lemmas -/

/-- Function `ratAbs` is the absolute value. -/
theorem ratAbs_eq_abs (q : ℚ) : ratAbs q = |q| := by
  unfold ratAbs
  rcases lt_trichotomy q 0 with h | h | h
  · rw [if_pos h, abs_of_neg h]
  · simp [h]
  · rw [if_neg (not_lt.mpr h.le), abs_of_pos h]

/-- Evaluation of `pyIdx` at a natural-number index. -/
theorem pyIdx_natCast (n k : ℕ) : pyIdx n (k : Int) = min k n := by
  unfold pyIdx
  rw [if_neg (by omega : ¬ ((k : Int) < 0))]
  omega

/-- Arctangent of a point on the nonnegative real axis is zero. -/
theorem atan2_zero_of_nonneg {x : ℝ} (hx : 0 ≤ x) : atan2 0 x = 0 := by
  unfold atan2
  have h : (⟨x, 0⟩ : ℂ) = (x : ℂ) := Complex.ext rfl rfl
  rw [h]
  exact Complex.arg_ofReal_of_nonneg hx

/-- Zero radians is zero degrees. -/
theorem degrees_zero : degrees 0 = 0 := by
  unfold degrees; ring

/-- Arctangent of a point on the negative imaginary axis. -/
theorem atan2_neg_axis : atan2 (-7000) 0 = -(Real.pi / 2) := by
  unfold atan2
  rw [Complex.arg_eq_neg_pi_div_two_iff]
  constructor
  · rfl
  · norm_num

/-- Conversion of `-(π/2)` radians to degrees. -/
theorem degrees_neg_pi_div_two : degrees (-(Real.pi / 2)) = -90 := by
  unfold degrees
  field_simp
  ring

/-- Raw longitude of the position `(0, -7000, _)` at 23:45. -/
theorem rawLon_neg_axis : rawLon 0 (-7000) 23 45 = -242.25 := by
  unfold rawLon
  rw [atan2_neg_axis, degrees_neg_pi_div_two]
  norm_num

/-- Normalized longitude of the position `(0, -7000, _)` at 23:45. -/
theorem lonOf_neg_axis : lonOf 0 (-7000) 23 45 = -602.25 := by
  unfold lonOf normalizeLon
  rw [rawLon_neg_axis]
  norm_num

/-- Raw longitude of a position on the positive x-axis. -/
theorem rawLon_pos_x (h m : ℝ) :
    rawLon 7000 0 h m = -((h - 12) + m / 60) * 15 + 24 := by
  unfold rawLon
  rw [atan2_zero_of_nonneg (by norm_num : (0:ℝ) ≤ 7000), degrees_zero]
  ring

/-- Longitude of the positive x-axis position at 12:00. -/
theorem lonOf_hour12 : lonOf 7000 0 12 0 = 24 := by
  unfold lonOf normalizeLon
  rw [rawLon_pos_x]
  norm_num

/-- Longitude of the positive x-axis position at 10:00. -/
theorem lonOf_hour10 : lonOf 7000 0 10 0 = 54 := by
  unfold lonOf normalizeLon
  rw [rawLon_pos_x]
  norm_num

/-- Longitude of the positive x-axis position at 02:00. -/
theorem lonOf_hour2 : lonOf 7000 0 2 0 = 174 := by
  unfold lonOf normalizeLon
  rw [rawLon_pos_x]
  norm_num

/-- Cast form of `lonOf_hour12` (hours and minutes parsed as rationals). -/
theorem lonOf_cast12 : lonOf 7000 0 ((12:ℚ):ℝ) ((0:ℚ):ℝ) = 24 := by
  push_cast
  exact lonOf_hour12

/-- Cast form of `lonOf_hour10`. -/
theorem lonOf_cast10 : lonOf 7000 0 ((10:ℚ):ℝ) ((0:ℚ):ℝ) = 54 := by
  push_cast
  exact lonOf_hour10

/-- Cast form of `lonOf_hour2`. -/
theorem lonOf_cast2 : lonOf 7000 0 ((2:ℚ):ℝ) ((0:ℚ):ℝ) = 174 := by
  push_cast
  exact lonOf_hour2

/-- Latitude of an equatorial position. -/
theorem latOf_equator : latOf 7000 0 0 = 0 := by
  unfold latOf
  rw [atan2_zero_of_nonneg (Real.sqrt_nonneg _), degrees_zero]

/-- Altitude at radius 7000 km. -/
theorem altOf_7000 : altOf 7000 0 0 = 629 := by
  unfold altOf MEAN_EARTH_RADIUS
  have h : ((7000:ℝ) ^ 2 + 0 ^ 2 + 0 ^ 2) = 7000 ^ 2 := by norm_num
  rw [h, Real.sqrt_sq (by norm_num : (0:ℝ) ≤ 7000)]
  norm_num

/-- Speed of the unit velocity vector. -/
theorem speedOf_unit : speedOf 1 0 0 = 1 := by
  unfold speedOf
  norm_num

/-- Lookup `findExact` finds a member of the series with the requested
epoch, provided the epochs are duplicate-free. -/
theorem findExact_some (e : String) (svs : List StateVector)
    (sv : StateVector) (hnd : (svs.map (·.epoch)).Nodup) (hmem : sv ∈ svs)
    (he : sv.epoch = e) : findExact e svs = some sv := by
  induction svs with
  | nil => cases hmem
  | cons a rest ih =>
    rw [List.map_cons, List.nodup_cons] at hnd
    rw [findExact]
    by_cases ha : a.epoch = e
    · rw [if_pos ha]
      rcases List.mem_cons.mp hmem with h | h
      · rw [h]
      · exact absurd (by rw [ha]; exact List.mem_map.mpr ⟨sv, h, he⟩) hnd.1
    · rw [if_neg ha]
      rcases List.mem_cons.mp hmem with h | h
      · exact absurd (by rw [← h]; exact he) ha
      · exact ih hnd.2 h

/-- Lookup `findExact` falls through when no sample carries the epoch. -/
theorem findExact_none (e : String) (svs : List StateVector)
    (h : ∀ sv ∈ svs, sv.epoch ≠ e) : findExact e svs = none := by
  induction svs with
  | nil => rfl
  | cons a rest ih =>
    rw [findExact, if_neg (h a (List.mem_cons_self a rest))]
    exact ih fun sv hsv => h sv (List.mem_cons_of_mem a hsv)

/-- Invariant of the first `/now` loop: folding `nowStep` over further
samples starting from a current best `(sd₀, ne₀)` either keeps the best
(and then every further sample is no closer) or switches to the first
strictly closer sample. -/
theorem nowScan_go (mk : String → ℚ) (tn : ℚ) (svs : List StateVector) :
    ∀ (le₀ : String) (lt₀ : ℚ) (sd₀ : ℚ) (ne₀ : String),
    ∃ le lt sd ne,
      svs.foldl (nowStep mk tn) (some (le₀, lt₀, sd₀, ne₀)) =
        some (le, lt, sd, ne) ∧
      ((sd = sd₀ ∧ ne = ne₀ ∧ ∀ sv ∈ svs, sd₀ ≤ ratAbs (mk sv.epoch - tn)) ∨
       (∃ i, ∃ hi : i < svs.length,
         sd = ratAbs (mk (svs.get ⟨i, hi⟩).epoch - tn) ∧
         ne = (svs.get ⟨i, hi⟩).epoch ∧ sd < sd₀ ∧
         (∀ j, ∀ hj : j < svs.length,
           sd ≤ ratAbs (mk (svs.get ⟨j, hj⟩).epoch - tn)) ∧
         (∀ j, ∀ hj : j < svs.length, j < i →
           sd < ratAbs (mk (svs.get ⟨j, hj⟩).epoch - tn)))) := by
  induction svs with
  | nil =>
    intro le₀ lt₀ sd₀ ne₀
    exact ⟨le₀, lt₀, sd₀, ne₀, rfl, Or.inl ⟨rfl, rfl, by simp⟩⟩
  | cons sv rest ih =>
    intro le₀ lt₀ sd₀ ne₀
    by_cases hd : ratAbs (mk sv.epoch - tn) < sd₀
    · obtain ⟨le, lt, sd, ne, heq, hcase⟩ :=
        ih sv.epoch (mk sv.epoch) (ratAbs (mk sv.epoch - tn)) sv.epoch
      refine ⟨le, lt, sd, ne, ?_, ?_⟩
      · simp only [List.foldl_cons, nowStep, if_pos hd]
        exact heq
      · rcases hcase with ⟨hsd, hne, hall⟩ | ⟨i, hi, hsd, hne, hlt, hall, hfirst⟩
        · refine Or.inr ⟨0, by simp, ?_, ?_, ?_, ?_, ?_⟩
          · exact hsd
          · exact hne
          · exact hsd ▸ hd
          · intro j hj
            match j, hj with
            | 0, _ => exact le_of_eq hsd
            | j + 1, hj =>
              exact le_trans (le_of_eq hsd)
                (hall _ (List.get_mem rest j (Nat.lt_of_succ_lt_succ hj)))
          · intro j hj hj0
            omega
        · refine Or.inr ⟨i + 1, Nat.succ_lt_succ hi, hsd, hne,
            lt_trans hlt hd, ?_, ?_⟩
          · intro j hj
            match j, hj with
            | 0, _ => exact le_of_lt hlt
            | j + 1, hj => exact hall j (Nat.lt_of_succ_lt_succ hj)
          · intro j hj hji
            match j, hj with
            | 0, _ => exact hlt
            | j + 1, hj =>
              exact hfirst j (Nat.lt_of_succ_lt_succ hj)
                (Nat.lt_of_succ_lt_succ hji)
    · obtain ⟨le, lt, sd, ne, heq, hcase⟩ := ih sv.epoch (mk sv.epoch) sd₀ ne₀
      refine ⟨le, lt, sd, ne, ?_, ?_⟩
      · simp only [List.foldl_cons, nowStep, if_neg hd]
        exact heq
      · rcases hcase with ⟨hsd, hne, hall⟩ | ⟨i, hi, hsd, hne, hlt, hall, hfirst⟩
        · refine Or.inl ⟨hsd, hne, ?_⟩
          intro sv' hsv'
          rcases List.mem_cons.mp hsv' with h | h
          · exact h ▸ not_lt.mp hd
          · exact hall sv' h
        · refine Or.inr ⟨i + 1, Nat.succ_lt_succ hi, hsd, hne, hlt, ?_, ?_⟩
          · intro j hj
            match j, hj with
            | 0, _ => exact le_of_lt (lt_of_lt_of_le hlt (not_lt.mp hd))
            | j + 1, hj => exact hall j (Nat.lt_of_succ_lt_succ hj)
          · intro j hj hji
            match j, hj with
            | 0, _ => exact lt_of_lt_of_le hlt (not_lt.mp hd)
            | j + 1, hj =>
              exact hfirst j (Nat.lt_of_succ_lt_succ hj)
                (Nat.lt_of_succ_lt_succ hji)

/-- Evaluation of the `/now` scan on the two-sample demo series: the
closest sample is `svA` (difference 0), and the loop leaves `epoch` and
`epoch_time` holding the last sample's values. -/
theorem nowScan_demo : nowScan mkDemo 100 [svA, svB] =
    some ("2023-048T10:00:00.000Z", 200, 0, "2023-048T02:00:00.000Z") := by
  have hs : ("2023-048T10:00:00.000Z" = "2023-048T02:00:00.000Z") = False := by
    simp only [eq_iff_iff, iff_false]
    decide
  simp only [nowScan, List.foldl, nowStep, mkDemo, svA, svB, hs, if_false,
    if_true, eq_self_iff_true]
  norm_num [ratAbs]

/-! ## Claims -/

/-- C1, counterexample: the claim "for every position/timestamp input whose
raw computed longitude lies within [-360, 360] the returned longitude lies
within [-180, 180]" fails at position `(0, -7000, _)` with timestamp hour
23 and minute 45: the raw longitude is `-242.25 ∈ [-360, 360]`, yet the
remap `-180 + (lon - 180)` sends it to `-602.25 ∉ [-180, 180]`. -/
theorem claim_C1_counterexample :
    (-360 ≤ rawLon 0 (-7000) 23 45 ∧ rawLon 0 (-7000) 23 45 ≤ 360) ∧
    ¬ (-180 ≤ lonOf 0 (-7000) 23 45 ∧ lonOf 0 (-7000) 23 45 ≤ 180) := by
  constructor
  · rw [rawLon_neg_axis]
    norm_num
  · rw [lonOf_neg_axis]
    norm_num

/-- C1, amended: for every numeric position and timestamp input whose raw
computed longitude (after the sidereal correction and +24 offset, before
normalization) lies within `[-180, 360]`, the longitude returned by the
projection lies within `[-180, 180]`. -/
theorem claim_C1 (x y h m : ℝ) (h1 : -180 ≤ rawLon x y h m)
    (h2 : rawLon x y h m ≤ 360) :
    -180 ≤ lonOf x y h m ∧ lonOf x y h m ≤ 180 := by
  unfold lonOf normalizeLon
  by_cases hc : rawLon x y h m ≤ 180 ∧ -180 ≤ rawLon x y h m
  · rw [if_pos hc]
    exact ⟨hc.2, hc.1⟩
  · rw [if_neg hc]
    push_neg at hc
    have h3 : 180 < rawLon x y h m := by
      by_contra hle
      push_neg at hle
      exact absurd h1 (not_le.mpr (hc hle))
    constructor <;> linarith

/-- C1, witness: the position `(7000, 0, _)` at 12:00 has raw longitude
24 ∈ [-180, 360] and normalized longitude 24 ∈ [-180, 180]. -/
theorem claim_C1_witness :
    (-180 ≤ rawLon 7000 0 12 0 ∧ rawLon 7000 0 12 0 ≤ 360) ∧
    (-180 ≤ lonOf 7000 0 12 0 ∧ lonOf 7000 0 12 0 ≤ 180) := by
  have e24 : rawLon 7000 0 12 0 = 24 := by
    rw [rawLon_pos_x]
    norm_num
  have hA : -180 ≤ rawLon 7000 0 12 0 := by
    rw [e24]
    norm_num
  have hB : rawLon 7000 0 12 0 ≤ 360 := by
    rw [e24]
    norm_num
  exact ⟨⟨hA, hB⟩, claim_C1 7000 0 12 0 hA hB⟩

/-- C2: on the two-sample series `[svA, svB]` at instant 100 s the scan
matches `svA` (difference 0, its own absolute time being 100), but the
response carries `epochTime = 200` — the LAST sample's absolute time — and
a longitude computed with the LAST sample's hour 10 (value 54) rather than
the matched sample's hour 2 (which would give 174): the loop variables
`epoch`/`epoch_time` leak from the first loop into the second. -/
theorem claim_C2 :
    getNowLoc mkDemo (fun _ _ => none) 100 (some [svA, svB]) =
      .ok ⟨"2023-048T02:00:00.000Z", 200, 0, latOf 7000 0 0,
        lonOf 7000 0 ((10:ℚ):ℝ) ((0:ℚ):ℝ), altOf 7000 0 0,
        "Location may be over the ocean", speedOf 1 0 0⟩ ∧
    mkDemo "2023-048T02:00:00.000Z" = 100 ∧
    mkDemo "2023-048T10:00:00.000Z" = 200 ∧
    (200 : ℚ) ≠ 100 ∧
    lonOf 7000 0 ((10:ℚ):ℝ) ((0:ℚ):ℝ) = 54 ∧
    lonOf 7000 0 ((2:ℚ):ℝ) ((0:ℚ):ℝ) = 174 ∧
    (54 : ℝ) ≠ 174 := by
  refine ⟨?_, rfl, rfl, by decide, lonOf_cast10, lonOf_cast2, by norm_num⟩
  simp only [getNowLoc]
  rw [nowScan_demo]
  rfl

/-- C3: the slice of lines 73-80 has length `min limit (n - offset)` when
both parameters are nonzero, `min limit n` when only the limit is nonzero,
`n - offset` when only the offset is nonzero (ℕ-subtraction is the claim's
`max (0, ·)`), is the whole epoch list when both are zero, and `showEpochs`
with both parameters absent returns the full epoch list in series order. -/
theorem claim_C3 (o l : ℕ) (es : List String) (svs : List StateVector) :
    (o ≠ 0 → l ≠ 0 →
      (sliceEpochs (o : Int) (l : Int) es).length = min l (es.length - o)) ∧
    (o = 0 → l ≠ 0 →
      (sliceEpochs (o : Int) (l : Int) es).length = min l es.length) ∧
    (o ≠ 0 → l = 0 →
      (sliceEpochs (o : Int) (l : Int) es).length = es.length - o) ∧
    (o = 0 → l = 0 → sliceEpochs (o : Int) (l : Int) es = es) ∧
    showEpochs (some svs) none none = .ok (epochsOf svs) := by
  refine ⟨?_, ?_, ?_, ?_, ?_⟩
  · intro ho hl
    rw [sliceEpochs, if_pos ⟨by exact_mod_cast ho, by exact_mod_cast hl⟩]
    unfold pySlice
    rw [show ((o : Int) + l) = ((o + l : ℕ) : Int) by push_cast; ring]
    rw [List.length_drop, List.length_take, pyIdx_natCast, pyIdx_natCast]
    omega
  · intro ho hl
    subst ho
    rw [sliceEpochs, if_neg (by simp), if_pos ⟨rfl, by exact_mod_cast hl⟩]
    unfold pySlice
    rw [show ((0 : ℕ) : Int) + (l : Int) = ((l : ℕ) : Int) by push_cast; ring]
    rw [show (0 : Int) = ((0 : ℕ) : Int) by norm_num]
    rw [List.length_drop, List.length_take, pyIdx_natCast, pyIdx_natCast]
    omega
  · intro ho hl
    subst hl
    rw [sliceEpochs, if_neg (by simp), if_neg (by simp),
      if_pos ⟨by exact_mod_cast ho, rfl⟩]
    unfold pySliceFrom
    rw [List.length_drop, pyIdx_natCast]
    omega
  · intro ho hl
    subst ho
    subst hl
    rfl
  · rfl

/-- C3, witness: the four length formulas at concrete inputs. -/
theorem claim_C3_witness :
    (sliceEpochs (1 : Int) (2 : Int) ["a", "b", "c", "d"]).length =
      min 2 (["a", "b", "c", "d"].length - 1) ∧
    (sliceEpochs (0 : Int) (2 : Int) ["a", "b", "c"]).length =
      min 2 ["a", "b", "c"].length ∧
    (sliceEpochs (3 : Int) (0 : Int) ["a", "b", "c", "d"]).length =
      ["a", "b", "c", "d"].length - 3 ∧
    sliceEpochs (0 : Int) (0 : Int) ["a", "b"] = ["a", "b"] := by
  refine ⟨?_, ?_, ?_, ?_⟩
  · exact ((claim_C3 1 2 ["a", "b", "c", "d"] []).1) (by decide) (by decide)
  · exact ((claim_C3 0 2 ["a", "b", "c"] []).2.1) rfl (by decide)
  · exact ((claim_C3 3 0 ["a", "b", "c", "d"] []).2.2.1) (by decide) rfl
  · exact ((claim_C3 0 0 ["a", "b"] []).2.2.2.1) rfl rfl

/-- C4, counterexample: the claim "a negative integer offset/limit input
returns the InvalidParameter outcome" fails: `offset = "-1"` on a
two-sample store is accepted, interpreted as the python negative index
`-1`, and yields the last epoch — not a validation error. -/
theorem claim_C4_counterexample :
    showEpochs (some [svA, svB]) (some "-1") none =
      .ok ["2023-048T10:00:00.000Z"] ∧
    EpochsResult.ok ["2023-048T10:00:00.000Z"] ≠ .badOffset ∧
    EpochsResult.ok ["2023-048T10:00:00.000Z"] ≠ .badLimit := by
  refine ⟨by decide, by decide, by decide⟩

/-- C4, amended: for every loaded store, an offset or limit input that is a
nonempty string not parseable as an integer yields the InvalidParameter
outcome naming that parameter (offset checked first); an input that parses
to an integer — negative ones included — is not rejected but used as a
python slice index. -/
theorem claim_C4 (svs : List StateVector) (ro rl : Option String) :
    (∀ s, ro = some s → ¬ s.isEmpty → pyInt s = none →
      showEpochs (some svs) ro rl = .badOffset) ∧
    (∀ s ov, rl = some s → ¬ s.isEmpty → pyInt s = none →
      resolveParam ro = some ov →
      showEpochs (some svs) ro rl = .badLimit) ∧
    (∀ s k, ro = some s → ¬ s.isEmpty → pyInt s = some k → rl = none →
      showEpochs (some svs) ro rl = .ok (sliceEpochs k 0 (epochsOf svs))) := by
  refine ⟨?_, ?_, ?_⟩
  · intro s hro hs hint
    subst hro
    simp only [showEpochs, resolveParam, if_neg hs, hint, Option.map_none']
  · intro s ov hrl hs hint hov
    subst hrl
    simp only [showEpochs]
    rw [hov]
    simp only [resolveParam, if_neg hs, hint, Option.map_none']
  · intro s k hro hs hint hrl
    subst hro
    subst hrl
    simp only [showEpochs, resolveParam, if_neg hs, hint, Option.map_some',
      selectEpochs]

/-- C4, witness: unparseable inputs are rejected naming the right
parameter, and the negative input `"-1"` produces a slice. -/
theorem claim_C4_witness :
    showEpochs (some [svA]) (some "abc") none = .badOffset ∧
    showEpochs (some [svA]) none (some "2x") = .badLimit ∧
    showEpochs (some [svA, svB]) (some "-1") none =
      .ok (sliceEpochs (-1) 0 (epochsOf [svA, svB])) := by
  refine ⟨?_, ?_, ?_⟩
  · exact (claim_C4 [svA] (some "abc") none).1 "abc" rfl (by decide) (by decide)
  · exact (claim_C4 [svA] none (some "2x")).2.1 "2x" (.intv 0) rfl (by decide)
      (by decide) rfl
  · exact (claim_C4 [svA, svB] (some "-1") none).2.2 "-1" (-1) rfl (by decide)
      (by decide) rfl

/-- C5: on every non-empty series the `/now` scan returns (as `now_epoch`,
with `smallest_diff` alongside) the epoch of the sample whose absolute time
difference to the instant is minimal, and strictly smaller than that of
every earlier sample — so an exact tie is won by the first occurrence in
series order. -/
theorem claim_C5 (mk : String → ℚ) (tn : ℚ) (sv₀ : StateVector)
    (rest : List StateVector) :
    ∃ le lt i, ∃ hi : i < (sv₀ :: rest).length,
      nowScan mk tn (sv₀ :: rest) =
        some (le, lt, |mk ((sv₀ :: rest).get ⟨i, hi⟩).epoch - tn|,
          ((sv₀ :: rest).get ⟨i, hi⟩).epoch) ∧
      (∀ j, ∀ hj : j < (sv₀ :: rest).length,
        |mk ((sv₀ :: rest).get ⟨i, hi⟩).epoch - tn| ≤
          |mk ((sv₀ :: rest).get ⟨j, hj⟩).epoch - tn|) ∧
      (∀ j, ∀ hj : j < (sv₀ :: rest).length, j < i →
        |mk ((sv₀ :: rest).get ⟨i, hi⟩).epoch - tn| <
          |mk ((sv₀ :: rest).get ⟨j, hj⟩).epoch - tn|) := by
  obtain ⟨le, lt, sd, ne, heq, hcase⟩ :=
    nowScan_go mk tn rest sv₀.epoch (mk sv₀.epoch)
      (ratAbs (mk sv₀.epoch - tn)) sv₀.epoch
  have hscan : nowScan mk tn (sv₀ :: rest) = some (le, lt, sd, ne) := by
    simpa only [nowScan, List.foldl_cons, nowStep] using heq
  simp only [ratAbs_eq_abs] at hcase
  rcases hcase with ⟨hsd, hne, hall⟩ | ⟨i, hi, hsd, hne, hlt, hall, hfirst⟩
  · refine ⟨le, lt, 0, by simp, ?_, ?_, ?_⟩
    · rw [hscan, hsd, hne]
      rfl
    · intro j hj
      match j, hj with
      | 0, _ => exact le_refl _
      | j + 1, hj =>
        show |mk sv₀.epoch - tn| ≤
          |mk (rest.get ⟨j, Nat.lt_of_succ_lt_succ hj⟩).epoch - tn|
        exact hall _ (List.get_mem rest j (Nat.lt_of_succ_lt_succ hj))
    · intro j hj hj0
      omega
  · refine ⟨le, lt, i + 1, Nat.succ_lt_succ hi, ?_, ?_, ?_⟩
    · rw [hscan, hsd, hne]
      rfl
    · intro j hj
      match j, hj with
      | 0, _ =>
        show |mk (rest.get ⟨i, hi⟩).epoch - tn| ≤ |mk sv₀.epoch - tn|
        exact (hsd.symm.trans_lt hlt).le
      | j + 1, hj =>
        show |mk (rest.get ⟨i, hi⟩).epoch - tn| ≤
          |mk (rest.get ⟨j, Nat.lt_of_succ_lt_succ hj⟩).epoch - tn|
        exact hsd.symm.le.trans (hall j (Nat.lt_of_succ_lt_succ hj))
    · intro j hj hji
      match j, hj with
      | 0, _ =>
        show |mk (rest.get ⟨i, hi⟩).epoch - tn| < |mk sv₀.epoch - tn|
        exact hsd.symm.trans_lt hlt
      | j + 1, hj =>
        show |mk (rest.get ⟨i, hi⟩).epoch - tn| <
          |mk (rest.get ⟨j, Nat.lt_of_succ_lt_succ hj⟩).epoch - tn|
        exact hsd.symm.trans_lt
          (hfirst j (Nat.lt_of_succ_lt_succ hj) (Nat.lt_of_succ_lt_succ hji))

/-- C6: after `clear()` empties the store, every one of the five query
operations returns the "Data has been cleared" outcome, for any arguments
whatsoever. -/
theorem claim_C6 (d : Store) (ro rl : Option String) (e : String)
    (mk : String → ℚ) (geocode : ℝ → ℝ → Option String) (tn : ℚ) :
    showEpochs (deleteData d) ro rl = .cleared ∧
    showStateVectors (deleteData d) e = .cleared ∧
    showSpeed (deleteData d) e = .cleared ∧
    getLocation geocode (deleteData d) e = .cleared ∧
    getNowLoc mk geocode tn (deleteData d) = .cleared :=
  ⟨rfl, rfl, rfl, rfl, rfl⟩

/-- C7: on a series with duplicate-free epochs, the exact lookup returns
the unique sample whose epoch equals the request under string equality,
and otherwise the NotFound outcome echoing the requested epoch. -/
theorem claim_C7 (svs : List StateVector) (e : String)
    (hnd : (svs.map (·.epoch)).Nodup) :
    (∀ sv ∈ svs, sv.epoch = e → showStateVectors (some svs) e = .found sv) ∧
    ((∀ sv ∈ svs, sv.epoch ≠ e) →
      showStateVectors (some svs) e = .notFound e) := by
  constructor
  · intro sv hmem he
    simp only [showStateVectors]
    rw [findExact_some e svs sv hnd hmem he]
  · intro h
    simp only [showStateVectors]
    rw [findExact_none e svs h]

/-- C7, witness: both branches on a concrete two-sample store. -/
theorem claim_C7_witness :
    showStateVectors (some [svA, svB]) "2023-048T02:00:00.000Z" =
      .found svA ∧
    showStateVectors (some [svA, svB]) "1999-001T00:00:00.000Z" =
      .notFound "1999-001T00:00:00.000Z" := by
  constructor
  · exact (claim_C7 [svA, svB] "2023-048T02:00:00.000Z" (by decide)).1 svA
      (List.mem_cons_self svA [svB]) rfl
  · refine (claim_C7 [svA, svB] "1999-001T00:00:00.000Z" (by decide)).2 ?_
    intro sv hsv
    rcases List.mem_cons.mp hsv with h | h
    · rw [h]
      decide
    · rw [List.mem_singleton.mp h]
      decide

/-- C8: on the single-sample series at `2023-050T12:00:00.000Z` with
velocity `(1, 0, 0)` and position `(7000, 0, 0)`: the speed is 1 km/s, the
exact lookup returns the sample verbatim, and the location has latitude 0,
longitude 24 (the §4.5 formula at hour 12, minute 0) and altitude
`7000 - 6371 = 629` km, whatever the geocoder answers. -/
theorem claim_C8 (geocode : ℝ → ℝ → Option String) :
    showSpeed (some [svC8]) "2023-050T12:00:00.000Z" = .ok 1 ∧
    showStateVectors (some [svC8]) "2023-050T12:00:00.000Z" = .found svC8 ∧
    ∃ g, getLocation geocode (some [svC8]) "2023-050T12:00:00.000Z" =
      .ok ⟨0, 24, 629, g⟩ := by
  refine ⟨?_, rfl, ?_⟩
  · have hred : showSpeed (some [svC8]) "2023-050T12:00:00.000Z" =
        .ok (speedOf 1 0 0) := rfl
    rw [hred, speedOf_unit]
  · refine ⟨geoText (geocode (latOf 7000 0 0)
      (lonOf 7000 0 ((12:ℚ):ℝ) ((0:ℚ):ℝ))), ?_⟩
    have hred : getLocation geocode (some [svC8]) "2023-050T12:00:00.000Z" =
        .ok ⟨latOf 7000 0 0, lonOf 7000 0 ((12:ℚ):ℝ) ((0:ℚ):ℝ),
          altOf 7000 0 0, geoText (geocode (latOf 7000 0 0)
            (lonOf 7000 0 ((12:ℚ):ℝ) ((0:ℚ):ℝ)))⟩ := rfl
    rw [hred, latOf_equator, altOf_7000, lonOf_cast12]

/-- C9, counterexample: the claim quotes the fallback placeholder as
"location may be over open water", but when the geocoder returns no result
the code returns the text "Location may be over the ocean". -/
theorem claim_C9_counterexample :
    (getLocation (fun _ _ => none) (some [svC8])
      "2023-050T12:00:00.000Z").geoOf =
      some "Location may be over the ocean" ∧
    some "Location may be over the ocean" ≠
      some "location may be over open water" := by
  exact ⟨rfl, by decide⟩

/-- C9, amended: for every matched sample, when the reverse-geocoding
collaborator returns no result, `getLocation` does not fail: it returns
the numeric latitude, longitude and altitude unchanged together with the
fallback placeholder text "Location may be over the ocean". -/
theorem claim_C9 (geocode : ℝ → ℝ → Option String) (svs : List StateVector)
    (e : String) (sv : StateVector) (h m : ℚ)
    (hfind : findExact e svs = some sv) (hh : hrsOf e = some h)
    (hm : minsOf e = some m)
    (hgeo : geocode (latOf sv.x sv.y sv.z)
      (lonOf sv.x sv.y (h : ℝ) (m : ℝ)) = none) :
    getLocation geocode (some svs) e =
      .ok ⟨latOf sv.x sv.y sv.z, lonOf sv.x sv.y (h : ℝ) (m : ℝ),
        altOf sv.x sv.y sv.z, "Location may be over the ocean"⟩ := by
  simp only [getLocation, hfind, hh, hm, hgeo, geoText]

/-- C9, witness: the amended claim at the concrete single-sample store with
a geocoder that always returns no result. -/
theorem claim_C9_witness :
    getLocation (fun _ _ => none) (some [svC8]) "2023-050T12:00:00.000Z" =
      .ok ⟨latOf svC8.x svC8.y svC8.z,
        lonOf svC8.x svC8.y ((12:ℚ):ℝ) ((0:ℚ):ℝ),
        altOf svC8.x svC8.y svC8.z, "Location may be over the ocean"⟩ :=
  claim_C9 (fun _ _ => none) [svC8] "2023-050T12:00:00.000Z" svC8 12 0 rfl
    (by decide) (by decide) rfl

/-- C10: on an empty store `showEpochs` returns the "Data has been
cleared" outcome for every offset/limit input — non-integer ones included —
because the emptiness check precedes parameter validation; in particular
the result is never an InvalidParameter outcome. -/
theorem claim_C10 (ro rl : Option String) :
    showEpochs none ro rl = .cleared ∧
    EpochsResult.cleared ≠ .badOffset ∧
    EpochsResult.cleared ≠ .badLimit :=
  ⟨rfl, by decide, by decide⟩

end IssTracker
